import Mathlib

/-!
# Verification of the IBD wearable data generator

A shallow embedding of `src/ibd_hackathon/ibd_data_generator.py` (the
per-patient timeline generator `generate_patient_timeline` and its constant
tables), with theorems settling the specification's claims about it.

Modelling conventions:
* Real-valued quantities are rationals (`ℚ`); the claims are about exact
  structural and order properties, not floating-point rounding.
* A possibly-absent (`nan`) channel value is an `Option ℚ`, `none` = absent.
  Two Python/NumPy operations on possibly-`nan` floats are embedded exactly:
  - Python's builtin `max(c, x)` returns `c` when `x` is `nan` (the comparison
    `nan > c` is false, so the first argument is kept): `pymax`.
  - `np.clip(x, lo, hi)` propagates `nan`: `npclip`.
* The random stream is factored out: the patient baseline, the scheduled
  flare periods, the per-day noise draws and the per-day missingness draw
  are explicit parameters, universally quantified in the theorems.
* Dates are day counts since the fixed epoch `datetime(2024, 1, 1)`;
  `start_date = 0` stands for 2024-01-01 and `d + 1` is the next calendar
  day, exactly the arithmetic of `start_date + timedelta(days=i)`.
-/

/-- The three wearable devices of `DEVICE_DISTRIBUTION` /
`DEVICE_CHARACTERISTICS`. -/
inductive Device where
  | appleWatch
  | fitbit
  | ouraRing
deriving DecidableEq, Repr

/-- One entry of the `DEVICE_CHARACTERISTICS` table. -/
structure DeviceChar where
  hr_hours_per_day : ℚ
  hrv_hours_per_day : ℚ
  spo2_hours_per_day : ℚ
  has_spo2 : Bool
deriving DecidableEq, Repr

/-- The `DEVICE_CHARACTERISTICS` table of the source. -/
def DEVICE_CHARACTERISTICS : Device → DeviceChar
  | .appleWatch => ⟨14.3, 4.9, 4.68, true⟩
  | .fitbit => ⟨19.0, 7.64, 0, false⟩
  | .ouraRing => ⟨11.0, 8.43, 0, false⟩

/-- One scalar per physiological channel; used both for the patient baseline
draw (`patient_baseline`) and for a day's vector of noise draws. -/
structure Channels where
  rhr : ℚ
  hr : ℚ
  hrv_sdnn : ℚ
  hrv_rmssd : ℚ
  steps : ℚ
  spo2 : ℚ
  sleep_hours : ℚ
  sleep_efficiency : ℚ
deriving DecidableEq, Repr

/-- The `FLARE_CHANGES` table of the source: additive shifts for
rhr/hr/spo2/sleep_hours/sleep_efficiency, proportional factors for
hrv_sdnn/hrv_rmssd/steps. -/
def FLARE_CHANGES : Channels :=
  { rhr := 8
    hr := 10
    hrv_sdnn := -0.30
    hrv_rmssd := -0.25
    steps := -0.40
    spo2 := -0.2
    sleep_hours := -1.0
    sleep_efficiency := -15 }

/-- One stored row of the output table.  The eight physiological channels
are `Option ℚ` (`none` = `nan`); the label `in_flare` and the counter
`days_to_flare` are total (the source always appends plain integers for
them, never `nan`). `date` is the day count since the epoch 2024-01-01. -/
structure Record where
  patient_id : String
  date : ℕ
  device : Device
  rhr : Option ℚ
  hr : Option ℚ
  hrv_sdnn : Option ℚ
  hrv_rmssd : Option ℚ
  steps : Option ℚ
  spo2 : Option ℚ
  sleep_hours : Option ℚ
  sleep_efficiency : Option ℚ
  in_flare : ℕ
  days_to_flare : ℤ
deriving DecidableEq, Repr

/-- Python's builtin `max(c, x)` on a possibly-`nan` float `x`: when `x`
is `nan` the comparison `x > c` is false and the first argument `c` is
returned, so an absent value comes back PRESENT at the floor `c`. -/
def pymax (c : ℚ) (x : Option ℚ) : Option ℚ :=
  match x with
  | none => some c
  | some v => some (max c v)

/-- `np.clip(x, lo, hi)` on a possibly-`nan` float: `nan` propagates. -/
def npclip (x : Option ℚ) (lo hi : ℚ) : Option ℚ :=
  x.map fun v => min (max v lo) hi

/-- `start_date = datetime(2024, 1, 1)`, the fixed epoch, encoded as day 0. -/
def start_date : ℕ := 0

/-- Day `day_idx` falls inside some scheduled episode (half-open interval):
`any(start <= day_idx < end for start, end in flare_periods)`. -/
def is_flare_day_calc (flare_periods : List (ℕ × ℕ)) (day_idx : ℕ) : Bool :=
  flare_periods.any fun p => decide (p.1 ≤ day_idx) && decide (day_idx < p.2)

/-- The `days_to_next_flare` scan: walk `flare_periods` in generation order
and return `start - day_idx` for the first episode with `day_idx < start`,
else `-1`. -/
def days_to_next_flare_calc (flare_periods : List (ℕ × ℕ)) (day_idx : ℕ) : ℤ :=
  match flare_periods.find? (fun p => decide (day_idx < p.1)) with
  | some p => (p.1 : ℤ) - (day_idx : ℤ)
  | none => -1

/-- The scalar `progress`: `1 - days_to_next_flare/49` when the countdown is
in `(0, 49]` (this branch first, even on a flare day), else `1.0` on a flare
day, else `0.0`. -/
def progress_calc (flare_periods : List (ℕ × ℕ)) (day_idx : ℕ) : ℚ :=
  let d := days_to_next_flare_calc flare_periods day_idx
  if 0 < d ∧ d ≤ 49 then 1 - (d : ℚ) / 49
  else if is_flare_day_calc flare_periods day_idx then 1.0
  else 0.0

/-- The pre-noise channel values: the patient baseline with the
`FLARE_CHANGES` transforms scaled by `progress` (additive for
rhr/hr/spo2/sleep_hours/sleep_efficiency, proportional for
hrv_sdnn/hrv_rmssd/steps). -/
def apply_flare_effects (patient_baseline : Channels) (progress : ℚ) : Channels :=
  { rhr := patient_baseline.rhr + FLARE_CHANGES.rhr * progress
    hr := patient_baseline.hr + FLARE_CHANGES.hr * progress
    hrv_sdnn := patient_baseline.hrv_sdnn * (1 + FLARE_CHANGES.hrv_sdnn * progress)
    hrv_rmssd := patient_baseline.hrv_rmssd * (1 + FLARE_CHANGES.hrv_rmssd * progress)
    steps := patient_baseline.steps * (1 + FLARE_CHANGES.steps * progress)
    spo2 := patient_baseline.spo2 + FLARE_CHANGES.spo2 * progress
    sleep_hours := patient_baseline.sleep_hours + FLARE_CHANGES.sleep_hours * progress
    sleep_efficiency :=
      patient_baseline.sleep_efficiency + FLARE_CHANGES.sleep_efficiency * progress }

/-- Channel-wise addition of the day's Gaussian noise draws. -/
def add_noise (v noise : Channels) : Channels :=
  { rhr := v.rhr + noise.rhr
    hr := v.hr + noise.hr
    hrv_sdnn := v.hrv_sdnn + noise.hrv_sdnn
    hrv_rmssd := v.hrv_rmssd + noise.hrv_rmssd
    steps := v.steps + noise.steps
    spo2 := v.spo2 + noise.spo2
    sleep_hours := v.sleep_hours + noise.sleep_hours
    sleep_efficiency := v.sleep_efficiency + noise.sleep_efficiency }

/-- One iteration of the per-day loop of `generate_patient_timeline`:
flare label and countdown, progress, flare transforms, noise, the per-day
missingness draw (all channels `nan` when `miss_draw` exceeds
`hr_hours_per_day / 24`), the spo2 capability override, and the stored
clamps (`max` floors via `pymax`, `np.clip` ranges via `npclip`). -/
def make_record (patient_id : String) (device : Device) (patient_baseline : Channels)
    (flare_periods : List (ℕ × ℕ)) (day_idx : ℕ) (noise : Channels)
    (miss_draw : ℚ) : Record :=
  let is_flare_day := is_flare_day_calc flare_periods day_idx
  let days_to_next_flare := days_to_next_flare_calc flare_periods day_idx
  let progress := progress_calc flare_periods day_idx
  let v := add_noise (apply_flare_effects patient_baseline progress) noise
  let device_char := DEVICE_CHARACTERISTICS device
  let measurement_probability := device_char.hr_hours_per_day / 24
  let missing := measurement_probability < miss_draw
  let present : ℚ → Option ℚ := fun x => if missing then none else some x
  let spo2_raw : Option ℚ := if device_char.has_spo2 then present v.spo2 else none
  { patient_id := patient_id
    date := start_date + day_idx
    device := device
    rhr := pymax 40 (present v.rhr)
    hr := pymax 50 (present v.hr)
    hrv_sdnn := pymax 5 (present v.hrv_sdnn)
    hrv_rmssd := pymax 5 (present v.hrv_rmssd)
    steps := pymax 0 (present v.steps)
    spo2 := npclip spo2_raw 90 100
    sleep_hours := npclip (present v.sleep_hours) 3 12
    sleep_efficiency := npclip (present v.sleep_efficiency) 40 100
    in_flare := if is_flare_day then 1 else 0
    days_to_flare := days_to_next_flare }

/-- `generate_patient_timeline`, with the random stream explicit: the
patient baseline, the scheduled flare periods, the per-day noise vector
and the per-day missingness draw are parameters.  Returns the `num_days`
stored rows in day order. -/
def generate_patient_timeline (patient_id : String) (num_days : ℕ) (device : Device)
    (patient_baseline : Channels) (flare_periods : List (ℕ × ℕ))
    (noise : ℕ → Channels) (miss_draw : ℕ → ℚ) : List Record :=
  (List.range num_days).map fun day_idx =>
    make_record patient_id device patient_baseline flare_periods day_idx
      (noise day_idx) (miss_draw day_idx)

/-- The half-open window `[30, num_days - flare_duration - 30)` from which
`flare_start = np.random.randint(30, num_days - flare_duration - 30)` is
drawn (over `ℤ`, as Python subtraction does not truncate). -/
def flare_start_window (num_days flare_duration : ℤ) : ℤ × ℤ :=
  (30, num_days - flare_duration - 30)

/-- A scheduled episode: `flare_end = flare_start + flare_duration`,
stored as the pair `(flare_start, flare_end)`. -/
def schedule_episode (flare_start flare_duration : ℤ) : ℤ × ℤ :=
  (flare_start, flare_start + flare_duration)

/-- The caller's clamp of the drawn duration:
`num_days = max(90, min(365, num_days))` in `main`. -/
def clamp_num_days (x : ℤ) : ℤ := max 90 (min 365 x)

/-- An all-zero channel vector, used to instantiate the random draws at
concrete inputs. -/
def zero_channels : Channels := ⟨0, 0, 0, 0, 0, 0, 0, 0⟩

/-! ## Helper lemmas -/

/-- The generated timeline has one row per day index. -/
theorem generate_patient_timeline_length (pid : String) (n : ℕ) (dev : Device)
    (b : Channels) (fp : List (ℕ × ℕ)) (noise : ℕ → Channels) (miss : ℕ → ℚ) :
    (generate_patient_timeline pid n dev b fp noise miss).length = n := by
  simp [generate_patient_timeline]

/-- The `i`-th row of the generated timeline is the record of day `i`. -/
theorem generate_patient_timeline_get (pid : String) (n : ℕ) (dev : Device)
    (b : Channels) (fp : List (ℕ × ℕ)) (noise : ℕ → Channels) (miss : ℕ → ℚ)
    (i : ℕ) (h : i < (generate_patient_timeline pid n dev b fp noise miss).length) :
    (generate_patient_timeline pid n dev b fp noise miss).get ⟨i, h⟩ =
      make_record pid dev b fp i (noise i) (miss i) := by
  simp [generate_patient_timeline, List.get_eq_getElem]

/-- Every row of the generated timeline is the record of some day index. -/
theorem mem_generate_patient_timeline {pid : String} {n : ℕ} {dev : Device}
    {b : Channels} {fp : List (ℕ × ℕ)} {noise : ℕ → Channels} {miss : ℕ → ℚ}
    {r : Record} (hr : r ∈ generate_patient_timeline pid n dev b fp noise miss) :
    ∃ i, i < n ∧ r = make_record pid dev b fp i (noise i) (miss i) := by
  simp only [generate_patient_timeline, List.mem_map, List.mem_range] at hr
  obtain ⟨i, hi, he⟩ := hr
  exact ⟨i, hi, he.symm⟩

/-- A value stored through Python's `max(c, ·)` is at least `c`. -/
theorem pymax_le {c : ℚ} {x : Option ℚ} {y : ℚ} (h : pymax c x = some y) : c ≤ y := by
  cases x with
  | none =>
    simp only [pymax, Option.some.injEq] at h
    exact h.le
  | some v =>
    simp only [pymax, Option.some.injEq] at h
    exact h ▸ le_max_left c v

/-- A value surviving `np.clip(·, lo, hi)` lies in `[lo, hi]`. -/
theorem npclip_bounds {x : Option ℚ} {lo hi y : ℚ} (hlohi : lo ≤ hi)
    (h : npclip x lo hi = some y) : lo ≤ y ∧ y ≤ hi := by
  cases x with
  | none => simp [npclip] at h
  | some v =>
    have h2 : min (max v lo) hi = y := by simpa [npclip] using h
    subst h2
    exact ⟨le_min (le_max_right v lo) hlohi, min_le_right _ _⟩

/-- The countdown scan never returns `0`: either `-1` or a positive count. -/
theorem days_to_next_flare_calc_neg_or_pos (fp : List (ℕ × ℕ)) (d : ℕ) :
    days_to_next_flare_calc fp d = -1 ∨ 1 ≤ days_to_next_flare_calc fp d := by
  unfold days_to_next_flare_calc
  cases hf : fp.find? (fun p => decide (d < p.1)) with
  | none => exact Or.inl rfl
  | some p =>
    right
    have hp := List.find?_some hf
    simp only [decide_eq_true_eq] at hp
    show (1 : ℤ) ≤ (p.1 : ℤ) - (d : ℤ)
    omega

/-- If no episode starts strictly after day `d`, the countdown scan
returns `-1`. -/
theorem days_to_next_flare_calc_of_no_future (fp : List (ℕ × ℕ)) (d : ℕ)
    (h : ∀ p ∈ fp, p.1 ≤ d) : days_to_next_flare_calc fp d = -1 := by
  unfold days_to_next_flare_calc
  rw [List.find?_eq_none.mpr]
  intro p hp
  simpa using Nat.not_lt.mpr (h p hp)

/-- If episode `i` is the first (in generation order) whose start exceeds
day `d`, the countdown scan returns `start_i - d`. -/
theorem days_to_next_flare_calc_of_first (fp : List (ℕ × ℕ)) (d : ℕ) (i : ℕ)
    (h : i < fp.length) (hd : d < (fp.get ⟨i, h⟩).1)
    (hprev : ∀ q ∈ fp.take i, q.1 ≤ d) :
    days_to_next_flare_calc fp d = ((fp.get ⟨i, h⟩).1 : ℤ) - (d : ℤ) := by
  induction fp generalizing i with
  | nil => simp at h
  | cons p rest ih =>
    cases i with
    | zero =>
      simp only [List.get] at hd ⊢
      unfold days_to_next_flare_calc
      rw [List.find?_cons_of_pos _ (by simpa using hd)]
    | succ j =>
      have hp : p.1 ≤ d := hprev p (by simp)
      have hj : j < rest.length := by simpa using Nat.lt_of_succ_lt_succ h
      have hd2 : d < (rest.get ⟨j, hj⟩).1 := by simpa using hd
      have hprev2 : ∀ q ∈ rest.take j, q.1 ≤ d := by
        intro q hq
        exact hprev q (by simp [hq])
      have hrec := ih j hj hd2 hprev2
      unfold days_to_next_flare_calc at hrec ⊢
      rw [List.find?_cons_of_neg _ (by simpa using Nat.not_lt.mpr hp)]
      simpa using hrec

/-- The flare label tests membership of the day in some episode interval. -/
theorem is_flare_day_calc_iff (fp : List (ℕ × ℕ)) (d : ℕ) :
    is_flare_day_calc fp d = true ↔ ∃ p ∈ fp, p.1 ≤ d ∧ d < p.2 := by
  simp [is_flare_day_calc, List.any_eq_true]

/-- On a day `d + 1` that is flare-free, if some episode was still upcoming
at day `d`, the countdown drops by exactly one (episodes assumed nonempty,
`start < end`, as the scheduler guarantees). -/
theorem days_to_next_flare_calc_succ (fp : List (ℕ × ℕ)) (d : ℕ)
    (hne : ∀ p ∈ fp, p.1 < p.2)
    (hnf : is_flare_day_calc fp (d + 1) = false)
    (hup : days_to_next_flare_calc fp d ≠ -1) :
    days_to_next_flare_calc fp (d + 1) = days_to_next_flare_calc fp d - 1 := by
  induction fp with
  | nil => simp [days_to_next_flare_calc] at hup
  | cons p rest ih =>
    simp only [is_flare_day_calc, List.any_cons, Bool.or_eq_false_iff,
      Bool.and_eq_false_iff, decide_eq_false_iff_not, Nat.not_le, Nat.not_lt] at hnf
    by_cases hdp : d + 1 < p.1
    · have hdp0 : d < p.1 := by omega
      unfold days_to_next_flare_calc
      rw [List.find?_cons_of_pos _ (by simpa using hdp),
        List.find?_cons_of_pos _ (by simpa using hdp0)]
      push_cast
      ring
    · by_cases hdp0 : d < p.1
      · exfalso
        have hstart : p.1 = d + 1 := by omega
        have hlt : p.1 < p.2 := hne p (List.mem_cons_self p rest)
        rcases hnf.1 with h | h
        · omega
        · omega
      · have hskip : ¬ d < p.1 := hdp0
        have hskip1 : ¬ d + 1 < p.1 := hdp
        have hrec := ih (fun q hq => hne q (List.mem_cons_of_mem p hq))
          (by
            have := hnf.2
            simpa [is_flare_day_calc] using this)
          (by
            unfold days_to_next_flare_calc at hup ⊢
            rwa [List.find?_cons_of_neg _ (by simpa using hskip)] at hup)
        unfold days_to_next_flare_calc at hrec ⊢
        rw [List.find?_cons_of_neg _ (by simpa using hskip1),
          List.find?_cons_of_neg _ (by simpa using hskip)]
        exact hrec

/-! ## Claim theorems -/

/-- C5: the stored `days_to_flare` is the generation-order scan result:
`start - day_idx` for the first episode with `start > day_idx`, and `-1`
when no episode in the list starts strictly later (including days inside
or past all episodes). -/
theorem C5_days_to_flare_scan (pid : String) (dev : Device) (b : Channels)
    (fp : List (ℕ × ℕ)) (d : ℕ) (nz : Channels) (md : ℚ) :
    (make_record pid dev b fp d nz md).days_to_flare = days_to_next_flare_calc fp d ∧
    ((∀ p ∈ fp, p.1 ≤ d) → days_to_next_flare_calc fp d = -1) ∧
    ∀ i : ℕ, ∀ h : i < fp.length, d < (fp.get ⟨i, h⟩).1 →
      (∀ q ∈ fp.take i, q.1 ≤ d) →
      days_to_next_flare_calc fp d = ((fp.get ⟨i, h⟩).1 : ℤ) - (d : ℤ) := by
  refine ⟨rfl, days_to_next_flare_calc_of_no_future fp d, ?_⟩
  intro i h hd hprev
  exact days_to_next_flare_calc_of_first fp d i h hd hprev

/-- Witness for C5 at the concrete schedule `[(40, 50)]`, day 10. -/
theorem C5_days_to_flare_scan_witness :
    days_to_next_flare_calc [(40, 50)] 10 = 30 :=
  (C5_days_to_flare_scan "P001" Device.fitbit zero_channels [(40, 50)] 10
      zero_channels 0).2.2 0 (by decide) (by decide) (by decide)

/-- C10: the stored countdown is never `0`: it is `-1` or at least `1`,
because the scan only considers episodes with `start > day_idx`. -/
theorem C10_days_to_flare_never_zero (pid : String) (dev : Device) (b : Channels)
    (fp : List (ℕ × ℕ)) (d : ℕ) (nz : Channels) (md : ℚ) :
    (make_record pid dev b fp d nz md).days_to_flare = -1 ∨
      1 ≤ (make_record pid dev b fp d nz md).days_to_flare :=
  days_to_next_flare_calc_neg_or_pos fp d

/-- C7: for every clamped duration `clamp_num_days x ∈ [90, 365]` and drawn
episode length in `[7, 21]`, the start window `[30, num_days - dur - 30)` is
nonempty (`num_days > dur + 60`), and every start drawn from it yields an
episode with `start ≥ 30`, `end = start + dur`, and `end ≤ num_days - 30`. -/
theorem C7_flare_scheduling_safe (x flare_duration : ℤ)
    (hd1 : 7 ≤ flare_duration) (hd2 : flare_duration ≤ 21) :
    (flare_start_window (clamp_num_days x) flare_duration).1 <
      (flare_start_window (clamp_num_days x) flare_duration).2 ∧
    flare_duration + 60 < clamp_num_days x ∧
    ∀ flare_start : ℤ,
      (flare_start_window (clamp_num_days x) flare_duration).1 ≤ flare_start →
      flare_start < (flare_start_window (clamp_num_days x) flare_duration).2 →
      30 ≤ (schedule_episode flare_start flare_duration).1 ∧
      (schedule_episode flare_start flare_duration).2 = flare_start + flare_duration ∧
      (schedule_episode flare_start flare_duration).2 ≤ clamp_num_days x - 30 := by
  unfold flare_start_window schedule_episode clamp_num_days
  refine ⟨by omega, by omega, ?_⟩
  intro s h1 h2
  refine ⟨by omega, rfl, by omega⟩

/-- Witness for C7 at `x = 207`, duration 7, start 30. -/
theorem C7_flare_scheduling_safe_witness :
    30 ≤ (schedule_episode 30 7).1 ∧
    (schedule_episode 30 7).2 = 30 + 7 ∧
    (schedule_episode 30 7).2 ≤ clamp_num_days 207 - 30 :=
  (C7_flare_scheduling_safe 207 7 (by decide) (by decide)).2.2 30 (by decide) (by decide)

/-- The stored `rhr` field, unfolded. -/
theorem make_record_rhr_eq (pid : String) (dev : Device) (b : Channels)
    (fp : List (ℕ × ℕ)) (d : ℕ) (nz : Channels) (md : ℚ) :
    (make_record pid dev b fp d nz md).rhr =
      pymax 40
        (if (DEVICE_CHARACTERISTICS dev).hr_hours_per_day / 24 < md then none
         else some (add_noise (apply_flare_effects b (progress_calc fp d)) nz).rhr) := rfl

/-- The stored `spo2` field, unfolded. -/
theorem make_record_spo2_eq (pid : String) (dev : Device) (b : Channels)
    (fp : List (ℕ × ℕ)) (d : ℕ) (nz : Channels) (md : ℚ) :
    (make_record pid dev b fp d nz md).spo2 =
      npclip
        (if (DEVICE_CHARACTERISTICS dev).has_spo2 then
          (if (DEVICE_CHARACTERISTICS dev).hr_hours_per_day / 24 < md then none
           else some (add_noise (apply_flare_effects b (progress_calc fp d)) nz).spo2)
         else none) 90 100 := rfl

/-- C2: the timeline has exactly `num_days` rows; row `i` carries the date
`start_date + i` (so dates are ordered and contiguous from the 2024-01-01
epoch), and the flare label is the integer `0` or `1` — like the stored
countdown it is total (a plain integer field, never `nan`), even on days
whose physiological channels are absent. -/
theorem C2_output_shape (pid : String) (n : ℕ) (dev : Device) (b : Channels)
    (fp : List (ℕ × ℕ)) (noise : ℕ → Channels) (miss : ℕ → ℚ) :
    (generate_patient_timeline pid n dev b fp noise miss).length = n ∧
    ∀ i : ℕ, ∀ h : i < (generate_patient_timeline pid n dev b fp noise miss).length,
      ((generate_patient_timeline pid n dev b fp noise miss).get ⟨i, h⟩).date =
          start_date + i ∧
      ((generate_patient_timeline pid n dev b fp noise miss).get ⟨i, h⟩).days_to_flare =
          days_to_next_flare_calc fp i ∧
      (((generate_patient_timeline pid n dev b fp noise miss).get ⟨i, h⟩).in_flare = 0 ∨
        ((generate_patient_timeline pid n dev b fp noise miss).get ⟨i, h⟩).in_flare = 1) := by
  refine ⟨generate_patient_timeline_length pid n dev b fp noise miss, ?_⟩
  intro i h
  rw [generate_patient_timeline_get]
  refine ⟨rfl, rfl, ?_⟩
  show (if is_flare_day_calc fp i then 1 else 0) = 0 ∨
    (if is_flare_day_calc fp i then 1 else 0) = 1
  by_cases hf : is_flare_day_calc fp i <;> simp [hf]

/-- Witness for C2 on a concrete 5-day timeline. -/
theorem C2_output_shape_witness :
    (generate_patient_timeline "P001" 5 Device.appleWatch zero_channels []
        (fun _ => zero_channels) (fun _ => 0)).length = 5 ∧
    ((generate_patient_timeline "P001" 5 Device.appleWatch zero_channels []
        (fun _ => zero_channels) (fun _ => 0)).get
      ⟨2, by simp [generate_patient_timeline]⟩).date = start_date + 2 := by
  have h := C2_output_shape "P001" 5 Device.appleWatch zero_channels []
    (fun _ => zero_channels) (fun _ => 0)
  exact ⟨h.1, (h.2 2 (by simp [generate_patient_timeline])).1⟩

/-- C3: every physiological channel value that is stored present lies in its
declared clamp range: `rhr ≥ 40`, `hr ≥ 50`, `hrv_sdnn ≥ 5`, `hrv_rmssd ≥ 5`,
`steps ≥ 0`, `spo2 ∈ [90, 100]`, `sleep_hours ∈ [3, 12]`,
`sleep_efficiency ∈ [40, 100]`. -/
theorem C3_clamp_ranges (pid : String) (n : ℕ) (dev : Device) (b : Channels)
    (fp : List (ℕ × ℕ)) (noise : ℕ → Channels) (miss : ℕ → ℚ) (r : Record)
    (hr : r ∈ generate_patient_timeline pid n dev b fp noise miss) :
    (∀ x : ℚ, r.rhr = some x → 40 ≤ x) ∧
    (∀ x : ℚ, r.hr = some x → 50 ≤ x) ∧
    (∀ x : ℚ, r.hrv_sdnn = some x → 5 ≤ x) ∧
    (∀ x : ℚ, r.hrv_rmssd = some x → 5 ≤ x) ∧
    (∀ x : ℚ, r.steps = some x → 0 ≤ x) ∧
    (∀ x : ℚ, r.spo2 = some x → 90 ≤ x ∧ x ≤ 100) ∧
    (∀ x : ℚ, r.sleep_hours = some x → 3 ≤ x ∧ x ≤ 12) ∧
    (∀ x : ℚ, r.sleep_efficiency = some x → 40 ≤ x ∧ x ≤ 100) := by
  obtain ⟨i, hi, he⟩ := mem_generate_patient_timeline hr
  subst he
  exact ⟨fun x hx => pymax_le hx, fun x hx => pymax_le hx, fun x hx => pymax_le hx,
    fun x hx => pymax_le hx, fun x hx => pymax_le hx,
    fun x hx => npclip_bounds (by norm_num) hx,
    fun x hx => npclip_bounds (by norm_num) hx,
    fun x hx => npclip_bounds (by norm_num) hx⟩

/-- Witness for C3: on a Fitbit day whose missingness draw `1` exceeds the
coverage `19/24`, the stored resting heart rate is present at the floor `40`
and satisfies the bound. -/
theorem C3_clamp_ranges_witness :
    ((generate_patient_timeline "P001" 1 Device.fitbit zero_channels []
        (fun _ => zero_channels) (fun _ => 1)).get
      ⟨0, by simp [generate_patient_timeline]⟩).rhr = some 40 ∧ (40 : ℚ) ≤ 40 := by
  have hx : ((generate_patient_timeline "P001" 1 Device.fitbit zero_channels []
      (fun _ => zero_channels) (fun _ => 1)).get
        ⟨0, by simp [generate_patient_timeline]⟩).rhr = some 40 := by
    rw [generate_patient_timeline_get, make_record_rhr_eq,
      if_pos (by norm_num [DEVICE_CHARACTERISTICS])]
    rfl
  refine ⟨hx, ?_⟩
  exact (C3_clamp_ranges "P001" 1 Device.fitbit zero_channels []
    (fun _ => zero_channels) (fun _ => 1) _ (List.get_mem _ _ _)).1 40 hx

/-- C8: a record of a device whose `has_spo2` flag is false (Fitbit and
Oura Ring, per `DEVICE_CHARACTERISTICS`) stores `spo2` absent on every day,
whatever the missingness draw. -/
theorem C8_no_spo2_capability (pid : String) (n : ℕ) (dev : Device) (b : Channels)
    (fp : List (ℕ × ℕ)) (noise : ℕ → Channels) (miss : ℕ → ℚ)
    (hcap : (DEVICE_CHARACTERISTICS dev).has_spo2 = false) :
    (DEVICE_CHARACTERISTICS Device.fitbit).has_spo2 = false ∧
    (DEVICE_CHARACTERISTICS Device.ouraRing).has_spo2 = false ∧
    ∀ r ∈ generate_patient_timeline pid n dev b fp noise miss, r.spo2 = none := by
  refine ⟨rfl, rfl, ?_⟩
  intro r hr
  obtain ⟨i, hi, he⟩ := mem_generate_patient_timeline hr
  subst he
  rw [make_record_spo2_eq, hcap]
  rfl

/-- Witness for C8: the first Fitbit row has `spo2` stored absent. -/
theorem C8_no_spo2_capability_witness :
    ((generate_patient_timeline "P001" 1 Device.fitbit zero_channels []
        (fun _ => zero_channels) (fun _ => 0)).get
      ⟨0, by simp [generate_patient_timeline]⟩).spo2 = none := by
  have h := C8_no_spo2_capability "P001" 1 Device.fitbit zero_channels []
    (fun _ => zero_channels) (fun _ => 0) rfl
  exact h.2.2 _ (List.get_mem _ _ _)

/-- C4: the progress scalar always lies in `[0, 1]`; the ramp branch
`1 - d/49` fires exactly when the countdown is in `(0, 49]` (taking
precedence even on a flare day), else progress is `1` on a flare day and
`0` otherwise; and the pre-noise values are the baseline under the
`FLARE_CHANGES` transforms: additive `+8`, `+10`, `-0.2`, `-1.0`, `-15`
for rhr, hr, spo2, sleep_hours, sleep_efficiency and proportional
`-30%`, `-25%`, `-40%` for hrv_sdnn, hrv_rmssd, steps. -/
theorem C4_progress_and_transforms (fp : List (ℕ × ℕ)) (d : ℕ) (b : Channels) :
    (0 ≤ progress_calc fp d ∧ progress_calc fp d ≤ 1) ∧
    (0 < days_to_next_flare_calc fp d ∧ days_to_next_flare_calc fp d ≤ 49 →
      progress_calc fp d = 1 - (days_to_next_flare_calc fp d : ℚ) / 49) ∧
    (¬(0 < days_to_next_flare_calc fp d ∧ days_to_next_flare_calc fp d ≤ 49) →
      is_flare_day_calc fp d = true → progress_calc fp d = 1) ∧
    (¬(0 < days_to_next_flare_calc fp d ∧ days_to_next_flare_calc fp d ≤ 49) →
      is_flare_day_calc fp d = false → progress_calc fp d = 0) ∧
    apply_flare_effects b (progress_calc fp d) =
      { rhr := b.rhr + 8 * progress_calc fp d
        hr := b.hr + 10 * progress_calc fp d
        hrv_sdnn := b.hrv_sdnn * (1 + (-0.30) * progress_calc fp d)
        hrv_rmssd := b.hrv_rmssd * (1 + (-0.25) * progress_calc fp d)
        steps := b.steps * (1 + (-0.40) * progress_calc fp d)
        spo2 := b.spo2 + (-0.2) * progress_calc fp d
        sleep_hours := b.sleep_hours + (-1.0) * progress_calc fp d
        sleep_efficiency := b.sleep_efficiency + (-15) * progress_calc fp d } := by
  have hb : progress_calc fp d =
      if 0 < days_to_next_flare_calc fp d ∧ days_to_next_flare_calc fp d ≤ 49 then
        1 - (days_to_next_flare_calc fp d : ℚ) / 49
      else if is_flare_day_calc fp d then 1.0 else 0.0 := rfl
  refine ⟨?_, ?_, ?_, ?_, rfl⟩
  · rw [hb]
    split
    · next h =>
      have h1 : (0 : ℚ) < (days_to_next_flare_calc fp d : ℚ) := by exact_mod_cast h.1
      have h2 : ((days_to_next_flare_calc fp d : ℚ)) ≤ 49 := by exact_mod_cast h.2
      have hq1 : (0 : ℚ) ≤ (days_to_next_flare_calc fp d : ℚ) / 49 :=
        div_nonneg h1.le (by norm_num)
      have hq2 : (days_to_next_flare_calc fp d : ℚ) / 49 ≤ 1 :=
        (div_le_one (by norm_num)).mpr h2
      constructor <;> linarith
    · split <;> norm_num
  · intro h
    rw [hb, if_pos h]
  · intro h hf
    rw [hb, if_neg h, if_pos hf]
    norm_num
  · intro h hf
    rw [hb, if_neg h, if_neg (by simp [hf])]
    norm_num

/-- Witness for C4 on the schedule `[(40, 50)]` at day 20 (countdown 20). -/
theorem C4_progress_and_transforms_witness :
    progress_calc [(40, 50)] 20 = 1 - (days_to_next_flare_calc [(40, 50)] 20 : ℚ) / 49 :=
  (C4_progress_and_transforms [(40, 50)] 20 zero_channels).2.1 (by decide)

/-- C6: the stored flare label is `1` exactly when the day lies in some
scheduled interval `[start, end)`; outside flares the stored countdown is
`-1` or positive, and across consecutive flare-free days an upcoming
countdown drops by exactly one per day (episodes nonempty, as scheduled). -/
theorem C6_flare_label_and_countdown (pid : String) (dev : Device) (b : Channels)
    (fp : List (ℕ × ℕ)) (d : ℕ) (nz nz2 : Channels) (md md2 : ℚ)
    (hne : ∀ p ∈ fp, p.1 < p.2) :
    ((make_record pid dev b fp d nz md).in_flare = 1 ↔ ∃ p ∈ fp, p.1 ≤ d ∧ d < p.2) ∧
    (is_flare_day_calc fp d = false →
      (make_record pid dev b fp d nz md).days_to_flare = -1 ∨
        0 < (make_record pid dev b fp d nz md).days_to_flare) ∧
    (is_flare_day_calc fp d = false → is_flare_day_calc fp (d + 1) = false →
      (make_record pid dev b fp d nz md).days_to_flare ≠ -1 →
      (make_record pid dev b fp (d + 1) nz2 md2).days_to_flare =
        (make_record pid dev b fp d nz md).days_to_flare - 1) := by
  refine ⟨?_, ?_, ?_⟩
  · show (if is_flare_day_calc fp d then 1 else 0) = 1 ↔ _
    rw [← is_flare_day_calc_iff]
    by_cases hf : is_flare_day_calc fp d <;> simp [hf]
  · intro _
    refine (days_to_next_flare_calc_neg_or_pos fp d).imp id ?_
    intro h
    show (0 : ℤ) < days_to_next_flare_calc fp d
    omega
  · intro _ h2 h3
    exact days_to_next_flare_calc_succ fp d hne h2 h3

/-- Witness for C6 on the schedule `[(40, 50)]`: from flare-free day 10 to
day 11 the countdown drops from 30 to 29. -/
theorem C6_flare_label_and_countdown_witness :
    (make_record "P001" Device.fitbit zero_channels [(40, 50)] 11 zero_channels 0).days_to_flare =
      (make_record "P001" Device.fitbit zero_channels [(40, 50)] 10 zero_channels 0).days_to_flare
        - 1 :=
  (C6_flare_label_and_countdown "P001" Device.fitbit zero_channels [(40, 50)] 10
      zero_channels zero_channels 0 0 (by decide)).2.2 (by decide) (by decide) (by decide)

/-- On a day whose missingness draw exceeds the coverage fraction, the
stored record: the five `max`-floored channels come back PRESENT at their
floors (Python's `max(c, nan) = c`), while the three `nan`-aware paths
(`spo2` guard, `np.clip`) store absent. -/
theorem make_record_missing_eq (pid : String) (dev : Device) (b : Channels)
    (fp : List (ℕ × ℕ)) (d : ℕ) (nz : Channels) (md : ℚ)
    (h : (DEVICE_CHARACTERISTICS dev).hr_hours_per_day / 24 < md) :
    make_record pid dev b fp d nz md =
      { patient_id := pid
        date := start_date + d
        device := dev
        rhr := some 40
        hr := some 50
        hrv_sdnn := some 5
        hrv_rmssd := some 5
        steps := some 0
        spo2 := none
        sleep_hours := none
        sleep_efficiency := none
        in_flare := if is_flare_day_calc fp d then 1 else 0
        days_to_flare := days_to_next_flare_calc fp d } := by
  simp [make_record, pymax, npclip, h]

/-- C1 is violated by the code: on a Fitbit day whose uniform draw `1`
exceeds the coverage `19/24`, the stored row keeps `rhr`, `hr`,
`hrv_sdnn`, `hrv_rmssd` and `steps` PRESENT at their clamp floors
(40, 50, 5, 5, 0), because Python's `max(floor, nan)` returns the floor;
only `spo2`, `sleep_hours` and `sleep_efficiency` are stored absent. -/
theorem C1_missing_day_stores_floor_values :
    (DEVICE_CHARACTERISTICS Device.fitbit).hr_hours_per_day / 24 < 1 ∧
    generate_patient_timeline "P001" 1 Device.fitbit zero_channels []
        (fun _ => zero_channels) (fun _ => 1) =
      [{ patient_id := "P001"
         date := start_date + 0
         device := Device.fitbit
         rhr := some 40
         hr := some 50
         hrv_sdnn := some 5
         hrv_rmssd := some 5
         steps := some 0
         spo2 := none
         sleep_hours := none
         sleep_efficiency := none
         in_flare := 0
         days_to_flare := -1 }] := by
  have h : (DEVICE_CHARACTERISTICS Device.fitbit).hr_hours_per_day / 24 < (1 : ℚ) := by
    norm_num [DEVICE_CHARACTERISTICS]
  refine ⟨h, ?_⟩
  have hr1 : List.range 1 = [0] := rfl
  simp only [generate_patient_timeline, hr1, List.map_cons, List.map_nil]
  rw [make_record_missing_eq "P001" Device.fitbit zero_channels [] 0 zero_channels 1 h]
  simp [is_flare_day_calc, days_to_next_flare_calc]

/-- C9 as stated is false: in the scenario (90 days, Fitbit, one 10-day
episode at `[40, 50)`), `days_to_flare` at index 0 is `40`, not `49`. -/
theorem C9_countdown_at_index_zero_is_forty :
    ((generate_patient_timeline "P001" 90 Device.fitbit zero_channels [(40, 50)]
        (fun _ => zero_channels) (fun _ => 0)).get
      ⟨0, by simp [generate_patient_timeline]⟩).days_to_flare ≠ 49 ∧
    ((generate_patient_timeline "P001" 90 Device.fitbit zero_channels [(40, 50)]
        (fun _ => zero_channels) (fun _ => 0)).get
      ⟨0, by simp [generate_patient_timeline]⟩).days_to_flare = 40 := by
  have h40 : ((generate_patient_timeline "P001" 90 Device.fitbit zero_channels [(40, 50)]
      (fun _ => zero_channels) (fun _ => 0)).get
        ⟨0, by simp [generate_patient_timeline]⟩).days_to_flare = 40 := by
    rw [generate_patient_timeline_get]
    show days_to_next_flare_calc [(40, 50)] 0 = 40
    decide
  exact ⟨by rw [h40]; decide, h40⟩

/-- C9 amended: in the scenario (90 days, Fitbit, one 10-day episode at
`[40, 50)`), whatever the baseline, noise and missingness draws:
`in_flare = 1` exactly on indices `[40, 50)`; `days_to_flare` counts down
from 40 at index 0 to 1 at index 39 and is `-1` from index 40 on; and
`spo2` is absent in all 90 rows. -/
theorem C9_scenario_amended (pid : String) (b : Channels) (noise : ℕ → Channels)
    (miss : ℕ → ℚ) :
    (generate_patient_timeline pid 90 Device.fitbit b [(40, 50)] noise miss).length = 90 ∧
    ∀ i : ℕ,
      ∀ h : i < (generate_patient_timeline pid 90 Device.fitbit b [(40, 50)]
          noise miss).length,
      (((generate_patient_timeline pid 90 Device.fitbit b [(40, 50)] noise miss).get
          ⟨i, h⟩).in_flare = 1 ↔ (40 ≤ i ∧ i < 50)) ∧
      ((generate_patient_timeline pid 90 Device.fitbit b [(40, 50)] noise miss).get
          ⟨i, h⟩).days_to_flare = (if i < 40 then (40 : ℤ) - (i : ℤ) else -1) ∧
      ((generate_patient_timeline pid 90 Device.fitbit b [(40, 50)] noise miss).get
          ⟨i, h⟩).spo2 = none := by
  refine ⟨generate_patient_timeline_length pid 90 Device.fitbit b [(40, 50)] noise miss, ?_⟩
  intro i h
  rw [generate_patient_timeline_get]
  have hiff : is_flare_day_calc [(40, 50)] i = true ↔ (40 ≤ i ∧ i < 50) := by
    simp [is_flare_day_calc]
  refine ⟨?_, ?_, ?_⟩
  · show (if is_flare_day_calc [(40, 50)] i then 1 else 0) = 1 ↔ _
    by_cases hc : is_flare_day_calc [(40, 50)] i
    · simpa [hc] using hiff.mp hc
    · simp only [Bool.not_eq_true] at hc
      simp only [hc, if_false]
      constructor
      · intro he
        exact absurd he (by decide)
      · intro hx
        exact absurd (hiff.mpr hx) (by simp [hc])
  · show days_to_next_flare_calc [(40, 50)] i = _
    unfold days_to_next_flare_calc
    by_cases hi : i < 40
    · rw [List.find?_cons_of_pos _ (by simpa using hi), if_pos hi]
      rfl
    · rw [List.find?_cons_of_neg _ (by simpa using hi), List.find?_nil, if_neg hi]
  · rw [make_record_spo2_eq]
    simp [DEVICE_CHARACTERISTICS, npclip]

/-- Witness for the amended C9 at index 39: the countdown there is 1. -/
theorem C9_scenario_amended_witness :
    ((generate_patient_timeline "P001" 90 Device.fitbit zero_channels [(40, 50)]
        (fun _ => zero_channels) (fun _ => 0)).get
      ⟨39, by simp [generate_patient_timeline]⟩).days_to_flare =
      (if (39 : ℕ) < 40 then (40 : ℤ) - ((39 : ℕ) : ℤ) else -1) :=
  ((C9_scenario_amended "P001" zero_channels (fun _ => zero_channels) (fun _ => 0)).2
    39 (by simp [generate_patient_timeline])).2.1
